import Mathlib

/-!
Verification of `src/daemon/tmux_example.py` against its specification.

The script is glue code around an external `TmuxController` object that is
not part of the repository.  We embed the controller as an abstract
environment `TmuxEnv E`: each controller operation is a function of its
arguments returning `Except E α`, where `E` is an abstract exception type
(a raised Python exception) and a `.ok` value is the operation's normal
return value.  A run of a demo routine is embedded as the pair of the
event trace it produces (controller calls, `print` output, `time.sleep`
pauses, in program order) and its outcome (`.ok ()` for a normal return,
`.error e` for an uncaught exception propagating out).
-/

/-- The `CommandResult` value returned by `execute_and_capture`: the spec and
the script only touch its `output` text field. -/
structure CommandResult where
  output : String
deriving Repr, DecidableEq

/-- A controller call together with its arguments, exactly as the script
issues them.  Instance methods carry the session name the controller was
constructed from. -/
inductive Call where
  | list_sessions
  | construct (session : String)
  | session_exists (session : String)
  | get_pane_info (session : String)
  | execute_and_capture (session command : String) (wait_time : ℚ)
  | capture_pane (session : String) (start_line : Int)
  | send_command (session command : String)
deriving Repr, DecidableEq

/-- One observable event of a run: a controller call, a line of printed
output, or a `time.sleep` pause. -/
inductive Event where
  | call (c : Call)
  | output (s : String)
  | sleep (duration : ℚ)
deriving Repr, DecidableEq

/-- The behaviour of the external `TmuxController`: what each operation
returns (or which exception it raises) for each argument vector.  The
script places no constraint on this collaborator, so theorems quantify
over all environments. -/
structure TmuxEnv (E : Type) where
  list_sessions : Except E (List String)
  construct : String → Except E Unit
  session_exists : String → Except E Bool
  get_pane_info : String → Except E (List (String × String))
  execute_and_capture : String → String → ℚ → Except E CommandResult
  capture_pane : String → Int → Except E String
  send_command : String → String → Except E Unit

/-- `demo_basic_usage` from `tmux_example.py`, translated statement by
statement.  Each controller call is recorded in the trace before its
result is inspected; an exception stops the run immediately with that
error as outcome, since the script has no `try`/`except`. -/
def demo_basic_usage {E : Type} (env : TmuxEnv E) : List Event × Except E Unit :=
  let t0 := [Event.output "=== Available Sessions ===", Event.call Call.list_sessions]
  match env.list_sessions with
  | .error e => (t0, .error e)
  | .ok sessions =>
    match sessions with
    | [] =>
      (t0 ++ [Event.output "No sessions found. Create one with: tmux new-session -d -s mysession"],
       .ok ())
    | s :: _ =>
      let t1 := t0 ++ sessions.map (fun x => Event.output ("  - " ++ x))
      let t2 := t1 ++ [Event.output ("\n=== Connecting to \x27" ++ s ++ "\x27 ==="),
                       Event.call (Call.construct s)]
      match env.construct s with
      | .error e => (t2, .error e)
      | .ok _ =>
        let t3 := t2 ++ [Event.call (Call.session_exists s)]
        match env.session_exists s with
        | .error e => (t3, .error e)
        | .ok b =>
          if !b then
            (t3 ++ [Event.output ("Session \x27" ++ s ++ "\x27 not found!")], .ok ())
          else
            let t4 := t3 ++ [Event.output "\n=== Pane Info ===",
                             Event.call (Call.get_pane_info s)]
            match env.get_pane_info s with
            | .error e => (t4, .error e)
            | .ok info =>
              let t5 := t4 ++ info.map (fun kv => Event.output ("  " ++ kv.1 ++ ": " ++ kv.2))
              let t6 := t5 ++ [Event.output "\n=== Execute \x27pwd\x27 ===",
                               Event.call (Call.execute_and_capture s "pwd" 0.3)]
              match env.execute_and_capture s "pwd" 0.3 with
              | .error e => (t6, .error e)
              | .ok r1 =>
                let t7 := t6 ++ [Event.output ("Output: " ++ r1.output),
                                 Event.output "\n=== Execute \x27ls -la\x27 ===",
                                 Event.call (Call.execute_and_capture s "ls -la" 0.5)]
                match env.execute_and_capture s "ls -la" 0.5 with
                | .error e => (t7, .error e)
                | .ok r2 =>
                  let t8 := t7 ++ [Event.output ("Output:\n" ++ r2.output),
                                   Event.output "\n=== Current Pane Content (last 10 lines) ===",
                                   Event.call (Call.capture_pane s (-10))]
                  match env.capture_pane s (-10) with
                  | .error e => (t8, .error e)
                  | .ok content => (t8 ++ [Event.output content], .ok ())

/-- The four constant commands sent by `demo_interactive_control`. -/
def interactive_commands : List String :=
  ["echo \x27Starting task...\x27", "date", "hostname", "echo \x27Task complete!\x27"]

/-- The `for cmd in commands` loop of `demo_interactive_control`: print,
send, then sleep 0.2 s; an exception from `send_command` propagates out
at once. -/
def sendLoop {E : Type} (env : TmuxEnv E) (session : String) :
    List String → List Event → List Event × Except E Unit
  | [], t => (t, .ok ())
  | cmd :: rest, t =>
    let t1 := t ++ [Event.output ("Sending: " ++ cmd), Event.call (Call.send_command session cmd)]
    match env.send_command session cmd with
    | .error e => (t1, .error e)
    | .ok _ => sendLoop env session rest (t1 ++ [Event.sleep 0.2])

/-- `demo_interactive_control` from `tmux_example.py`, translated statement
by statement. -/
def demo_interactive_control {E : Type} (env : TmuxEnv E) : List Event × Except E Unit :=
  let t0 := [Event.call Call.list_sessions]
  match env.list_sessions with
  | .error e => (t0, .error e)
  | .ok sessions =>
    match sessions with
    | [] => (t0 ++ [Event.output "No sessions available"], .ok ())
    | s :: _ =>
      let t1 := t0 ++ [Event.call (Call.construct s)]
      match env.construct s with
      | .error e => (t1, .error e)
      | .ok _ => sendLoop env s interactive_commands t1

/-- The `if __name__ == "__main__"` dispatch: `sys.argv` is embedded as the
full argument vector (program name at index 0); `len(sys.argv) > 1 and
sys.argv[1] == "--interactive"` is exactly `argv[1]? = some "--interactive"`. -/
def tmux_example_main {E : Type} (argv : List String) (env : TmuxEnv E) :
    List Event × Except E Unit :=
  if argv[1]? = some "--interactive" then demo_interactive_control env
  else demo_basic_usage env

/-- The controller calls of a trace, in order. -/
def callsOf (t : List Event) : List Call :=
  t.filterMap fun e => match e with | .call c => some c | _ => none

/-- The constructor calls of a trace (session names passed to
`TmuxController(...)`), in order. -/
def constructCallsOf (t : List Event) : List String :=
  t.filterMap fun e => match e with | .call (Call.construct s) => some s | _ => none

/-- The `session_exists` calls of a trace, in order. -/
def sessionExistsCallsOf (t : List Event) : List String :=
  t.filterMap fun e => match e with | .call (Call.session_exists s) => some s | _ => none

/-- The `send_command` calls of a trace as (session, command) pairs, in order. -/
def sendCmdsOf (t : List Event) : List (String × String) :=
  t.filterMap fun e => match e with | .call (Call.send_command s c) => some (s, c) | _ => none

/-- The `execute_and_capture` calls of a trace as (command, wait_time)
pairs, in order. -/
def execWaitsOf (t : List Event) : List (String × ℚ) :=
  t.filterMap fun e =>
    match e with | .call (Call.execute_and_capture _ c w) => some (c, w) | _ => none

/-- The `time.sleep` durations of a trace, in order. -/
def sleepsOf (t : List Event) : List ℚ :=
  t.filterMap fun e => match e with | .sleep d => some d | _ => none

/-- The error raised by the environment on a given call, if any. -/
def callError {E : Type} (env : TmuxEnv E) : Call → Option E
  | .list_sessions => match env.list_sessions with | .error e => some e | .ok _ => none
  | .construct s => match env.construct s with | .error e => some e | .ok _ => none
  | .session_exists s => match env.session_exists s with | .error e => some e | .ok _ => none
  | .get_pane_info s => match env.get_pane_info s with | .error e => some e | .ok _ => none
  | .execute_and_capture s c w =>
      match env.execute_and_capture s c w with | .error e => some e | .ok _ => none
  | .capture_pane s n => match env.capture_pane s n with | .error e => some e | .ok _ => none
  | .send_command s c => match env.send_command s c with | .error e => some e | .ok _ => none

/-- The full controller-call sequence of a complete `demo_basic_usage` run
that takes no early return. -/
def basicCallSeq (s : String) : List Call :=
  [Call.list_sessions, Call.construct s, Call.session_exists s, Call.get_pane_info s,
   Call.execute_and_capture s "pwd" 0.3, Call.execute_and_capture s "ls -la" 0.5,
   Call.capture_pane s (-10)]

/-- An environment with no sessions and every operation succeeding. -/
def envNoSessions : TmuxEnv String :=
  TmuxEnv.mk (.ok []) (fun _ => .ok ()) (fun _ => .ok true) (fun _ => .ok [])
    (fun _ _ _ => .ok (CommandResult.mk "")) (fun _ _ => .ok "") (fun _ _ => .ok ())

/-- Claim C1: whenever `list_sessions` returns an empty sequence, both
`demo_basic_usage` and `demo_interactive_control` print a no-sessions
message and return immediately: the run succeeds, its only controller
call is `list_sessions`, so no controller is constructed and no further
operation is invoked. -/
theorem c1_empty_sessions_stop {E : Type} (env : TmuxEnv E)
    (h : env.list_sessions = .ok []) :
    demo_basic_usage env =
      ([Event.output "=== Available Sessions ===", Event.call Call.list_sessions,
        Event.output "No sessions found. Create one with: tmux new-session -d -s mysession"],
       .ok ()) ∧
    demo_interactive_control env =
      ([Event.call Call.list_sessions, Event.output "No sessions available"], .ok ()) ∧
    callsOf (demo_basic_usage env).1 = [Call.list_sessions] ∧
    callsOf (demo_interactive_control env).1 = [Call.list_sessions] := by
  refine ⟨?_, ?_, ?_, ?_⟩ <;>
    simp [demo_basic_usage, demo_interactive_control, h, callsOf]

/-- Witness for C1 at the concrete environment `envNoSessions`. -/
theorem c1_empty_sessions_stop_witness :
    demo_basic_usage envNoSessions =
      ([Event.output "=== Available Sessions ===", Event.call Call.list_sessions,
        Event.output "No sessions found. Create one with: tmux new-session -d -s mysession"],
       .ok ()) ∧
    demo_interactive_control envNoSessions =
      ([Event.call Call.list_sessions, Event.output "No sessions available"], .ok ()) ∧
    callsOf (demo_basic_usage envNoSessions).1 = [Call.list_sessions] ∧
    callsOf (demo_interactive_control envNoSessions).1 = [Call.list_sessions] :=
  c1_empty_sessions_stop envNoSessions rfl

/-- Printed-output events contribute nothing to any call projection. -/
lemma filterMap_map_output {α β : Type} (f : Event → Option β) (g : α → String) (l : List α)
    (hf : ∀ y, f (Event.output y) = none) :
    List.filterMap (f ∘ fun x => Event.output (g x)) l = [] := by
  induction l with
  | nil => rfl
  | cons a l ih => simp [List.filterMap_cons, hf, ih]

/-- `sendLoop` only appends print output, `send_command` calls and sleeps:
any projection that drops those three event shapes is unchanged by it. -/
lemma sendLoop_filterMap_eq {E β : Type} (env : TmuxEnv E) (s : String) (f : Event → Option β)
    (hout : ∀ y, f (Event.output y) = none) (hsleep : ∀ d, f (Event.sleep d) = none)
    (hsend : ∀ t c, f (Event.call (Call.send_command t c)) = none) :
    ∀ (cmds : List String) (t0 : List Event),
      List.filterMap f (sendLoop env s cmds t0).1 = List.filterMap f t0 := by
  intro cmds
  induction cmds with
  | nil => intro t0; rfl
  | cons cmd rest ih =>
    intro t0
    unfold sendLoop
    cases env.send_command s cmd with
    | error e => simp [List.filterMap_append, hout, hsend]
    | ok u => simp [ih, List.filterMap_append, hout, hsend, hsleep]

/-- An environment with two sessions and every operation succeeding. -/
def envTwoSessions : TmuxEnv String :=
  TmuxEnv.mk (.ok ["alpha", "beta"]) (fun _ => .ok ()) (fun _ => .ok true)
    (fun _ => .ok [("width", "80")]) (fun _ _ _ => .ok (CommandResult.mk "out"))
    (fun _ _ => .ok "pane") (fun _ _ => .ok ())

/-- Claim C2: whenever `list_sessions` returns a non-empty sequence, the
session name passed to the `TmuxController` constructor is exactly the
first element of that sequence, in both demo routines: each run performs
exactly one constructor call, and its argument is the head session. -/
theorem c2_connects_first {E : Type} (env : TmuxEnv E) (s : String) (rest : List String)
    (h : env.list_sessions = .ok (s :: rest)) :
    constructCallsOf (demo_basic_usage env).1 = [s] ∧
    constructCallsOf (demo_interactive_control env).1 = [s] := by
  constructor
  · unfold demo_basic_usage
    rw [h]
    repeat' split
    all_goals simp_all [constructCallsOf, filterMap_map_output]
  · unfold demo_interactive_control
    rw [h]
    repeat' split
    all_goals simp_all [constructCallsOf, sendLoop_filterMap_eq]

/-- Witness for C2 at the concrete environment `envTwoSessions`. -/
theorem c2_connects_first_witness :
    constructCallsOf (demo_basic_usage envTwoSessions).1 = ["alpha"] ∧
    constructCallsOf (demo_interactive_control envTwoSessions).1 = ["alpha"] :=
  c2_connects_first envTwoSessions "alpha" ["beta"] rfl

/-- Claim C3: the top-level dispatch runs `demo_interactive_control`
exactly when the first command-line argument is `--interactive`, and
`demo_basic_usage` when there are no arguments or the first argument is
any other string; the two paths are mutually exclusive. -/
theorem c3_dispatch {E : Type} (argv : List String) (env : TmuxEnv E) :
    (argv[1]? = some "--interactive" → tmux_example_main argv env = demo_interactive_control env) ∧
    (argv[1]? ≠ some "--interactive" → tmux_example_main argv env = demo_basic_usage env) := by
  constructor <;> intro h <;> simp [tmux_example_main, h]

/-- Witness for C3 at concrete argument vectors. -/
theorem c3_dispatch_witness :
    tmux_example_main ["tmux_example.py", "--interactive"] envTwoSessions =
      demo_interactive_control envTwoSessions ∧
    tmux_example_main ["tmux_example.py"] envTwoSessions = demo_basic_usage envTwoSessions :=
  ⟨(c3_dispatch ["tmux_example.py", "--interactive"] envTwoSessions).1 rfl,
   (c3_dispatch ["tmux_example.py"] envTwoSessions).2 (by simp)⟩

/-- An environment with one session whose `session_exists` check reports
false, every operation succeeding. -/
def envNoExist : TmuxEnv String :=
  TmuxEnv.mk (.ok ["work"]) (fun _ => .ok ()) (fun _ => .ok false) (fun _ => .ok [])
    (fun _ _ _ => .ok (CommandResult.mk "")) (fun _ _ => .ok "") (fun _ _ => .ok ())

/-- Counterexample to C4 as stated: with a non-empty session list but a
false `session_exists` answer, `demo_basic_usage` stops early — it
returns normally after printing a session-not-found message, with no
`get_pane_info`, `execute_and_capture` or `capture_pane` call — so the
empty-session check is not the only condition causing an early return. -/
theorem c4_counterexample :
    envNoExist.list_sessions = .ok ["work"] ∧
    (demo_basic_usage envNoExist).2 = .ok () ∧
    Event.output "Session \x27work\x27 not found!" ∈ (demo_basic_usage envNoExist).1 ∧
    callsOf (demo_basic_usage envNoExist).1 =
      [Call.list_sessions, Call.construct "work", Call.session_exists "work"] :=
  ⟨rfl, rfl, by decide, by decide⟩

/-- Claim C4 amended: a demo routine stops early when `list_sessions`
returns an empty sequence, and in addition `demo_basic_usage` stops early
— printing a session-not-found message — when `session_exists` returns
false; when `session_exists` returns true this check passes and
`get_pane_info` is reached, so no further check causes an early return. -/
theorem c4_amended {E : Type} (env : TmuxEnv E) (s : String) (rest : List String)
    (h : env.list_sessions = .ok (s :: rest)) (hc : env.construct s = .ok ()) :
    (env.session_exists s = .ok false →
      demo_basic_usage env =
        ([Event.output "=== Available Sessions ===", Event.call Call.list_sessions] ++
         (s :: rest).map (fun x => Event.output ("  - " ++ x)) ++
         [Event.output ("\n=== Connecting to \x27" ++ s ++ "\x27 ==="),
          Event.call (Call.construct s), Event.call (Call.session_exists s),
          Event.output ("Session \x27" ++ s ++ "\x27 not found!")], .ok ()) ∧
      callsOf (demo_basic_usage env).1 =
        [Call.list_sessions, Call.construct s, Call.session_exists s]) ∧
    (env.session_exists s = .ok true →
      Event.call (Call.get_pane_info s) ∈ (demo_basic_usage env).1) := by
  constructor
  · intro hx
    constructor
    · simp [demo_basic_usage, h, hc, hx]
    · simp [demo_basic_usage, h, hc, hx, callsOf, filterMap_map_output]
  · intro hx
    unfold demo_basic_usage
    rw [h]
    simp only [hc, hx]
    repeat' split
    all_goals simp_all

/-- Witness for the amended C4 at the concrete environments `envNoExist`
(early return on a false `session_exists`) and `envTwoSessions` (the
check passes and `get_pane_info` is reached). -/
theorem c4_amended_witness :
    (demo_basic_usage envNoExist =
        ([Event.output "=== Available Sessions ===", Event.call Call.list_sessions] ++
         ("work" :: ([] : List String)).map (fun x => Event.output ("  - " ++ x)) ++
         [Event.output ("\n=== Connecting to \x27" ++ "work" ++ "\x27 ==="),
          Event.call (Call.construct "work"), Event.call (Call.session_exists "work"),
          Event.output ("Session \x27" ++ "work" ++ "\x27 not found!")], .ok ()) ∧
      callsOf (demo_basic_usage envNoExist).1 =
        [Call.list_sessions, Call.construct "work", Call.session_exists "work"]) ∧
    Event.call (Call.get_pane_info "alpha") ∈ (demo_basic_usage envTwoSessions).1 :=
  ⟨(c4_amended envNoExist "work" [] rfl rfl).1 rfl,
   (c4_amended envTwoSessions "alpha" ["beta"] rfl rfl).2 rfl⟩

lemma sendLoop_error_last {E : Type} (env : TmuxEnv E) (s : String) :
    ∀ (cmds : List String) (t0 : List Event) (t : List Event) (e : E),
      sendLoop env s cmds t0 = (t, .error e) →
      ∃ c, (callsOf t).getLast? = some c ∧ callError env c = some e := by
  intro cmds
  induction cmds with
  | nil =>
    intro t0 t e h
    simp [sendLoop] at h
  | cons cmd rest ih =>
    intro t0 t e h
    unfold sendLoop at h
    rcases hs : env.send_command s cmd with e1 | u
    · rw [hs] at h
      simp only [Prod.mk.injEq] at h
      obtain ⟨h1, h2⟩ := h
      subst h1
      cases h2
      refine ⟨Call.send_command s cmd, ?_, ?_⟩
      · simp [callsOf, List.filterMap_append]
      · simp [callError, hs]
    · rw [hs] at h
      exact ih _ _ _ h

lemma demo_basic_usage_cases {E : Type} (env : TmuxEnv E) :
    (demo_basic_usage env).2 = .ok () ∨
    (∃ c e, (demo_basic_usage env).2 = .error e ∧
      (callsOf (demo_basic_usage env).1).getLast? = some c ∧ callError env c = some e) := by
  rcases hls : env.list_sessions with e | sessions
  · right
    refine ⟨Call.list_sessions, e, ?_, ?_, ?_⟩ <;>
      simp [demo_basic_usage, hls, callsOf, callError]
  rcases sessions with _ | ⟨s, rest⟩
  · left; simp [demo_basic_usage, hls]
  rcases hc : env.construct s with e | u
  · right
    refine ⟨Call.construct s, e, ?_, ?_, ?_⟩ <;>
      simp [demo_basic_usage, hls, hc, callsOf, callError, filterMap_map_output]
  rcases hx : env.session_exists s with e | b
  · right
    refine ⟨Call.session_exists s, e, ?_, ?_, ?_⟩ <;>
      simp [demo_basic_usage, hls, hc, hx, callsOf, callError, filterMap_map_output]
  rcases b with _ | _
  · left; simp [demo_basic_usage, hls, hc, hx]
  rcases hp : env.get_pane_info s with e | info
  · right
    refine ⟨Call.get_pane_info s, e, ?_, ?_, ?_⟩ <;>
      simp [demo_basic_usage, hls, hc, hx, hp, callsOf, callError, filterMap_map_output]
  rcases h1 : env.execute_and_capture s "pwd" 0.3 with e | r1
  · right
    refine ⟨Call.execute_and_capture s "pwd" 0.3, e, ?_, ?_, ?_⟩ <;>
      simp [demo_basic_usage, hls, hc, hx, hp, h1, callsOf, callError, filterMap_map_output]
  rcases h2 : env.execute_and_capture s "ls -la" 0.5 with e | r2
  · right
    refine ⟨Call.execute_and_capture s "ls -la" 0.5, e, ?_, ?_, ?_⟩ <;>
      simp [demo_basic_usage, hls, hc, hx, hp, h1, h2, callsOf, callError, filterMap_map_output]
  rcases h3 : env.capture_pane s (-10) with e | content
  · right
    refine ⟨Call.capture_pane s (-10), e, ?_, ?_, ?_⟩ <;>
      simp [demo_basic_usage, hls, hc, hx, hp, h1, h2, h3, callsOf, callError, filterMap_map_output]
  · left; simp [demo_basic_usage, hls, hc, hx, hp, h1, h2, h3]

lemma demo_interactive_control_cases {E : Type} (env : TmuxEnv E) :
    (demo_interactive_control env).2 = .ok () ∨
    (∃ c e, (demo_interactive_control env).2 = .error e ∧
      (callsOf (demo_interactive_control env).1).getLast? = some c ∧ callError env c = some e) := by
  rcases hls : env.list_sessions with e | sessions
  · right
    refine ⟨Call.list_sessions, e, ?_, ?_, ?_⟩ <;>
      simp [demo_interactive_control, hls, callsOf, callError]
  rcases sessions with _ | ⟨s, rest⟩
  · left; simp [demo_interactive_control, hls]
  rcases hc : env.construct s with e | u
  · right
    refine ⟨Call.construct s, e, ?_, ?_, ?_⟩ <;>
      simp [demo_interactive_control, hls, hc, callsOf, callError]
  have hd : demo_interactive_control env =
      sendLoop env s interactive_commands
        [Event.call Call.list_sessions, Event.call (Call.construct s)] := by
    simp [demo_interactive_control, hls, hc]
  rcases hr : (sendLoop env s interactive_commands
      [Event.call Call.list_sessions, Event.call (Call.construct s)]).2 with e | u
  · right
    have hpair : sendLoop env s interactive_commands
        [Event.call Call.list_sessions, Event.call (Call.construct s)] =
        ((sendLoop env s interactive_commands
          [Event.call Call.list_sessions, Event.call (Call.construct s)]).1, .error e) := by
      rw [← hr]
    obtain ⟨c, hlast, herr⟩ := sendLoop_error_last env s interactive_commands _ _ e hpair
    exact ⟨c, e, by rw [hd, hr], by rw [hd]; exact hlast, herr⟩
  · left; rw [hd, hr]

/-- Claim C5: any exception raised by a controller operation propagates
unchanged: whenever a run of the script ends in error `e`, the trace's
last controller call is a call `c` on which the environment raised
exactly `e`; nothing is caught, retried or substituted after it. -/
theorem c5_exceptions_propagate {E : Type} (argv : List String) (env : TmuxEnv E)
    (t : List Event) (e : E) (h : tmux_example_main argv env = (t, .error e)) :
    ∃ c, (callsOf t).getLast? = some c ∧ callError env c = some e := by
  unfold tmux_example_main at h
  split at h
  · rcases demo_interactive_control_cases env with hok | ⟨c, e0, he, hl, hcall⟩
    · rw [h] at hok; simp at hok
    · rw [h] at he hl
      simp only at he
      cases he
      exact ⟨c, hl, hcall⟩
  · rcases demo_basic_usage_cases env with hok | ⟨c, e0, he, hl, hcall⟩
    · rw [h] at hok; simp at hok
    · rw [h] at he hl
      simp only at he
      cases he
      exact ⟨c, hl, hcall⟩

def envBoom : TmuxEnv String :=
  TmuxEnv.mk (.error "boom") (fun _ => .ok ()) (fun _ => .ok true) (fun _ => .ok [])
    (fun _ _ _ => .ok (CommandResult.mk "")) (fun _ _ => .ok "") (fun _ _ => .ok ())

/-- Witness for C5: a `list_sessions` failure surfaces as the run's error. -/
theorem c5_exceptions_propagate_witness :
    ∃ c, (callsOf [Event.output "=== Available Sessions ===",
      Event.call Call.list_sessions]).getLast? = some c ∧ callError envBoom c = some "boom" :=
  c5_exceptions_propagate ["tmux_example.py"] envBoom
    [Event.output "=== Available Sessions ===", Event.call Call.list_sessions] "boom" rfl

lemma execWaitsOf_basic {E : Type} (env : TmuxEnv E) :
    ∃ n, execWaitsOf (demo_basic_usage env).1 =
      ([("pwd", (0.3 : ℚ)), ("ls -la", 0.5)]).take n := by
  unfold demo_basic_usage
  repeat' split
  all_goals first
    | (refine ⟨0, ?_⟩; simp [execWaitsOf, filterMap_map_output]; done)
    | (refine ⟨1, ?_⟩; simp [execWaitsOf, filterMap_map_output]; done)
    | (refine ⟨2, ?_⟩; simp [execWaitsOf, filterMap_map_output]; done)

lemma sleepsOf_basic {E : Type} (env : TmuxEnv E) :
    sleepsOf (demo_basic_usage env).1 = [] := by
  unfold demo_basic_usage
  repeat' split
  all_goals simp [sleepsOf, filterMap_map_output]

lemma execWaitsOf_interactive {E : Type} (env : TmuxEnv E) :
    execWaitsOf (demo_interactive_control env).1 = [] := by
  unfold demo_interactive_control
  repeat' split
  all_goals simp [execWaitsOf, sendLoop_filterMap_eq]

lemma sendLoop_sleeps {E : Type} (env : TmuxEnv E) (s : String) :
    ∀ (cmds : List String) (t0 : List Event),
      ∃ m, sleepsOf (sendLoop env s cmds t0).1 = sleepsOf t0 ++ List.replicate m (0.2 : ℚ) := by
  intro cmds
  induction cmds with
  | nil => intro t0; exact ⟨0, by simp [sendLoop]⟩
  | cons cmd rest ih =>
    intro t0
    unfold sendLoop
    rcases hs : env.send_command s cmd with e | u
    · exact ⟨0, by simp [sleepsOf, List.filterMap_append]⟩
    · obtain ⟨m, hm⟩ := ih (t0 ++ [Event.output ("Sending: " ++ cmd),
        Event.call (Call.send_command s cmd)] ++ [Event.sleep 0.2])
      refine ⟨m + 1, ?_⟩
      rw [hm]
      simp [sleepsOf, List.filterMap_append, List.replicate_succ]

lemma sleepsOf_interactive {E : Type} (env : TmuxEnv E) :
    ∃ m, sleepsOf (demo_interactive_control env).1 = List.replicate m (0.2 : ℚ) := by
  rcases hls : env.list_sessions with e | sessions
  · exact ⟨0, by simp [demo_interactive_control, hls, sleepsOf]⟩
  rcases sessions with _ | ⟨s, rest⟩
  · exact ⟨0, by simp [demo_interactive_control, hls, sleepsOf]⟩
  rcases hc : env.construct s with e | u
  · exact ⟨0, by simp [demo_interactive_control, hls, hc, sleepsOf]⟩
  obtain ⟨m, hm⟩ := sendLoop_sleeps env s interactive_commands
    [Event.call Call.list_sessions, Event.call (Call.construct s)]
  refine ⟨m, ?_⟩
  have hd : demo_interactive_control env =
      sendLoop env s interactive_commands
        [Event.call Call.list_sessions, Event.call (Call.construct s)] := by
    simp [demo_interactive_control, hls, hc]
  rw [hd, hm]
  simp [sleepsOf]

/-- Claim C6: every pause the script introduces is of fixed hard-coded
duration: the `execute_and_capture` calls of `demo_basic_usage` carry
wait_time 0.3 for `pwd` and 0.5 for `ls -la` (and nothing else, in that
order), `demo_basic_usage` never sleeps, `demo_interactive_control`
never calls `execute_and_capture`, and all its sleeps last exactly
0.2 seconds. -/
theorem c6_fixed_waits {E : Type} (env : TmuxEnv E) :
    (∃ n, execWaitsOf (demo_basic_usage env).1 =
      ([("pwd", (0.3 : ℚ)), ("ls -la", 0.5)]).take n) ∧
    sleepsOf (demo_basic_usage env).1 = [] ∧
    execWaitsOf (demo_interactive_control env).1 = [] ∧
    (∃ m, sleepsOf (demo_interactive_control env).1 = List.replicate m (0.2 : ℚ)) :=
  ⟨execWaitsOf_basic env, sleepsOf_basic env, execWaitsOf_interactive env,
   sleepsOf_interactive env⟩

/-- Claim C7: in `demo_basic_usage` the controller operations occur in
exactly the order `list_sessions`, constructor on the first session,
`session_exists`, `get_pane_info`, `execute_and_capture "pwd" 0.3`,
`execute_and_capture "ls -la" 0.5`, `capture_pane (-10)`: every run's
call sequence is a prefix of `basicCallSeq`, and a run that takes no
early return (non-empty list, existing session) and finishes normally
performs the whole sequence. -/
theorem c7_basic_order {E : Type} (env : TmuxEnv E) (s : String) (rest : List String)
    (h : env.list_sessions = .ok (s :: rest)) :
    (∃ n, callsOf (demo_basic_usage env).1 = (basicCallSeq s).take n) ∧
    (env.session_exists s = .ok true → (demo_basic_usage env).2 = .ok () →
      callsOf (demo_basic_usage env).1 = basicCallSeq s) := by
  constructor
  · unfold demo_basic_usage
    rw [h]
    repeat' split
    all_goals first
      | (simp_all; done)
      | (refine ⟨1, ?_⟩; simp_all [callsOf, basicCallSeq, filterMap_map_output]; done)
      | (refine ⟨2, ?_⟩; simp_all [callsOf, basicCallSeq, filterMap_map_output]; done)
      | (refine ⟨3, ?_⟩; simp_all [callsOf, basicCallSeq, filterMap_map_output]; done)
      | (refine ⟨4, ?_⟩; simp_all [callsOf, basicCallSeq, filterMap_map_output]; done)
      | (refine ⟨5, ?_⟩; simp_all [callsOf, basicCallSeq, filterMap_map_output]; done)
      | (refine ⟨6, ?_⟩; simp_all [callsOf, basicCallSeq, filterMap_map_output]; done)
      | (refine ⟨7, ?_⟩; simp_all [callsOf, basicCallSeq, filterMap_map_output]; done)
  · intro hx hok
    rcases hc : env.construct s with e | u
    · simp [demo_basic_usage, h, hc] at hok
    rcases hp : env.get_pane_info s with e | info
    · simp [demo_basic_usage, h, hc, hx, hp] at hok
    rcases h1 : env.execute_and_capture s "pwd" 0.3 with e | r1
    · simp [demo_basic_usage, h, hc, hx, hp, h1] at hok
    rcases h2 : env.execute_and_capture s "ls -la" 0.5 with e | r2
    · simp [demo_basic_usage, h, hc, hx, hp, h1, h2] at hok
    rcases h3 : env.capture_pane s (-10) with e | content
    · simp [demo_basic_usage, h, hc, hx, hp, h1, h2, h3] at hok
    simp [demo_basic_usage, h, hc, hx, hp, h1, h2, h3, callsOf, basicCallSeq,
      filterMap_map_output]

/-- Witness for C7 at the concrete environment `envTwoSessions`. -/
theorem c7_basic_order_witness :
    (∃ n, callsOf (demo_basic_usage envTwoSessions).1 = (basicCallSeq "alpha").take n) ∧
    callsOf (demo_basic_usage envTwoSessions).1 = basicCallSeq "alpha" :=
  ⟨(c7_basic_order envTwoSessions "alpha" ["beta"] rfl).1,
   (c7_basic_order envTwoSessions "alpha" ["beta"] rfl).2 rfl rfl⟩

lemma sendLoop_sends_split {E : Type} (env : TmuxEnv E) (s : String) :
    ∀ (cmds : List String) (t0 : List Event),
      ∃ l, sendCmdsOf (sendLoop env s cmds t0).1 = sendCmdsOf t0 ++ l := by
  intro cmds
  induction cmds with
  | nil => intro t0; exact ⟨[], by simp [sendLoop]⟩
  | cons cmd rest ih =>
    intro t0
    unfold sendLoop
    rcases hs : env.send_command s cmd with e | u
    · exact ⟨[(s, cmd)], by simp [sendCmdsOf, List.filterMap_append]⟩
    · obtain ⟨l, hl⟩ := ih (t0 ++ [Event.output ("Sending: " ++ cmd),
        Event.call (Call.send_command s cmd)] ++ [Event.sleep 0.2])
      refine ⟨(s, cmd) :: l, ?_⟩
      rw [hl]
      simp [sendCmdsOf, List.filterMap_append]

lemma sendLoop_sends_cons {E : Type} (env : TmuxEnv E) (s cmd : String)
    (rest : List String) (t0 : List Event) :
    ∃ tail, sendCmdsOf (sendLoop env s (cmd :: rest) t0).1 =
      sendCmdsOf t0 ++ (s, cmd) :: tail := by
  unfold sendLoop
  rcases hs : env.send_command s cmd with e | u
  · exact ⟨[], by simp [sendCmdsOf, List.filterMap_append]⟩
  · obtain ⟨l, hl⟩ := sendLoop_sends_split env s rest
      (t0 ++ [Event.output ("Sending: " ++ cmd),
        Event.call (Call.send_command s cmd)] ++ [Event.sleep 0.2])
    refine ⟨l, ?_⟩
    rw [hl]
    simp [sendCmdsOf, List.filterMap_append]

lemma sendLoop_sends_prefix {E : Type} (env : TmuxEnv E) (s : String) :
    ∀ (cmds : List String) (t0 : List Event),
      ∃ j, sendCmdsOf (sendLoop env s cmds t0).1 =
        sendCmdsOf t0 ++ (cmds.take j).map (fun c => (s, c)) := by
  intro cmds
  induction cmds with
  | nil => intro t0; exact ⟨0, by simp [sendLoop]⟩
  | cons cmd rest ih =>
    intro t0
    unfold sendLoop
    rcases hs : env.send_command s cmd with e | u
    · refine ⟨1, ?_⟩
      simp [sendCmdsOf, List.filterMap_append]
    · obtain ⟨j, hj⟩ := ih (t0 ++ [Event.output ("Sending: " ++ cmd),
        Event.call (Call.send_command s cmd)] ++ [Event.sleep 0.2])
      refine ⟨j + 1, ?_⟩
      rw [hj]
      simp [sendCmdsOf, List.filterMap_append]

lemma sendLoop_sends_ok {E : Type} (env : TmuxEnv E) (s : String) :
    ∀ (cmds : List String) (t0 : List Event),
      (sendLoop env s cmds t0).2 = .ok () →
      sendCmdsOf (sendLoop env s cmds t0).1 =
        sendCmdsOf t0 ++ cmds.map (fun c => (s, c)) := by
  intro cmds
  induction cmds with
  | nil => intro t0 _; simp [sendLoop]
  | cons cmd rest ih =>
    intro t0 hok
    unfold sendLoop at hok ⊢
    rcases hs : env.send_command s cmd with e | u
    · rw [hs] at hok
      simp at hok
    · try rw [hs] at hok
      try rw [hs]
      dsimp only at hok ⊢
      rw [ih _ hok]
      simp [sendCmdsOf, List.filterMap_append]

/-- Claim C8: `demo_interactive_control` never calls `session_exists` for
any environment; given a non-empty session list it constructs the
controller from the first session name and immediately begins sending
commands (its first `send_command` is issued without any existence
check), unlike `demo_basic_usage`, whose first three controller calls
are always `list_sessions`, the constructor, then `session_exists`. -/
theorem c8_no_exists_check (E : Type) :
    (∀ env : TmuxEnv E, sessionExistsCallsOf (demo_interactive_control env).1 = []) ∧
    (∀ (env : TmuxEnv E) (s : String) (rest : List String),
      env.list_sessions = .ok (s :: rest) → env.construct s = .ok () →
      constructCallsOf (demo_interactive_control env).1 = [s] ∧
      (sendCmdsOf (demo_interactive_control env).1).head? =
        some (s, "echo \x27Starting task...\x27")) ∧
    (∀ (env : TmuxEnv E) (s : String) (rest : List String),
      env.list_sessions = .ok (s :: rest) → env.construct s = .ok () →
      (callsOf (demo_basic_usage env).1).take 3 =
        [Call.list_sessions, Call.construct s, Call.session_exists s]) := by
  refine ⟨?_, ?_, ?_⟩
  · intro env
    unfold demo_interactive_control
    repeat' split
    all_goals simp [sessionExistsCallsOf, sendLoop_filterMap_eq]
  · intro env s rest h hc
    have hd : demo_interactive_control env =
        sendLoop env s interactive_commands
          [Event.call Call.list_sessions, Event.call (Call.construct s)] := by
      simp [demo_interactive_control, h, hc]
    constructor
    · rw [hd]
      simp [constructCallsOf, sendLoop_filterMap_eq]
    · obtain ⟨tail, ht⟩ := sendLoop_sends_cons env s "echo \x27Starting task...\x27"
        ["date", "hostname", "echo \x27Task complete!\x27"]
        [Event.call Call.list_sessions, Event.call (Call.construct s)]
      rw [hd, show interactive_commands = "echo \x27Starting task...\x27" ::
        ["date", "hostname", "echo \x27Task complete!\x27"] from rfl, ht]
      simp [sendCmdsOf]
  · intro env s rest h hc
    unfold demo_basic_usage
    rw [h]
    repeat' split
    all_goals simp_all [callsOf, filterMap_map_output]

/-- Witness for C8 at the concrete environment `envTwoSessions`. -/
theorem c8_no_exists_check_witness :
    sessionExistsCallsOf (demo_interactive_control envTwoSessions).1 = [] ∧
    (constructCallsOf (demo_interactive_control envTwoSessions).1 = ["alpha"] ∧
      (sendCmdsOf (demo_interactive_control envTwoSessions).1).head? =
        some ("alpha", "echo \x27Starting task...\x27")) ∧
    (callsOf (demo_basic_usage envTwoSessions).1).take 3 =
      [Call.list_sessions, Call.construct "alpha", Call.session_exists "alpha"] :=
  ⟨(c8_no_exists_check String).1 envTwoSessions,
   (c8_no_exists_check String).2.1 envTwoSessions "alpha" ["beta"] rfl rfl,
   (c8_no_exists_check String).2.2 envTwoSessions "alpha" ["beta"] rfl rfl⟩

/-- Claim C9: with a non-empty session list, `demo_interactive_control`
sends exactly the four constant commands `echo 'Starting task...'`,
`date`, `hostname`, `echo 'Task complete!'` in that order to the first
session: every run's `send_command` calls are a prefix of that list
(truncated only by a propagating exception), and every normally
finishing run sends exactly all four, independent of session name or
any controller return value. -/
theorem c9_interactive_sends {E : Type} (env : TmuxEnv E) (s : String) (rest : List String)
    (h : env.list_sessions = .ok (s :: rest)) :
    (∃ j, sendCmdsOf (demo_interactive_control env).1 =
      (interactive_commands.take j).map (fun c => (s, c))) ∧
    ((demo_interactive_control env).2 = .ok () →
      sendCmdsOf (demo_interactive_control env).1 =
        [(s, "echo \x27Starting task...\x27"), (s, "date"), (s, "hostname"),
         (s, "echo \x27Task complete!\x27")]) := by
  rcases hc : env.construct s with e | u
  · constructor
    · exact ⟨0, by simp [demo_interactive_control, h, hc, sendCmdsOf]⟩
    · intro hok
      simp [demo_interactive_control, h, hc] at hok
  · have hd : demo_interactive_control env =
        sendLoop env s interactive_commands
          [Event.call Call.list_sessions, Event.call (Call.construct s)] := by
      simp [demo_interactive_control, h, hc]
    constructor
    · obtain ⟨j, hj⟩ := sendLoop_sends_prefix env s interactive_commands
        [Event.call Call.list_sessions, Event.call (Call.construct s)]
      refine ⟨j, ?_⟩
      rw [hd, hj]
      simp [sendCmdsOf]
    · intro hok
      rw [hd] at hok ⊢
      rw [sendLoop_sends_ok env s interactive_commands _ hok]
      simp [sendCmdsOf, interactive_commands]

/-- Witness for C9 at the concrete environment `envTwoSessions`. -/
theorem c9_interactive_sends_witness :
    (∃ j, sendCmdsOf (demo_interactive_control envTwoSessions).1 =
      (interactive_commands.take j).map (fun c => ("alpha", c))) ∧
    sendCmdsOf (demo_interactive_control envTwoSessions).1 =
      [("alpha", "echo \x27Starting task...\x27"), ("alpha", "date"), ("alpha", "hostname"),
       ("alpha", "echo \x27Task complete!\x27")] :=
  ⟨(c9_interactive_sends envTwoSessions "alpha" ["beta"] rfl).1,
   (c9_interactive_sends envTwoSessions "alpha" ["beta"] rfl).2 rfl⟩

/-- A second environment identical in behaviour to `envTwoSessions`,
declared separately. -/
def envTwoSessionsCopy : TmuxEnv String :=
  TmuxEnv.mk (.ok ["alpha", "beta"]) (fun _ => .ok ()) (fun _ => .ok true)
    (fun _ => .ok [("width", "80")]) (fun _ _ _ => .ok (CommandResult.mk "out"))
    (fun _ _ => .ok "pane") (fun _ _ => .ok ())

/-- Claim C10: the script is deterministic relative to its inputs: two
runs with the same argument vector whose controllers return the same
value on every operation produce identical traces (same controller
calls with the same arguments, same printed output, same sleeps) and
the same outcome. -/
theorem c10_deterministic {E : Type} (env1 env2 : TmuxEnv E) (argv : List String)
    (h1 : env1.list_sessions = env2.list_sessions)
    (h2 : ∀ s, env1.construct s = env2.construct s)
    (h3 : ∀ s, env1.session_exists s = env2.session_exists s)
    (h4 : ∀ s, env1.get_pane_info s = env2.get_pane_info s)
    (h5 : ∀ s c w, env1.execute_and_capture s c w = env2.execute_and_capture s c w)
    (h6 : ∀ s n, env1.capture_pane s n = env2.capture_pane s n)
    (h7 : ∀ s c, env1.send_command s c = env2.send_command s c) :
    tmux_example_main argv env1 = tmux_example_main argv env2 := by
  have henv : env1 = env2 := by
    obtain ⟨a1, a2, a3, a4, a5, a6, a7⟩ := env1
    obtain ⟨b1, b2, b3, b4, b5, b6, b7⟩ := env2
    simp only at h1 h2 h3 h4 h5 h6 h7
    congr 1
    · exact funext fun s => h2 s
    · exact funext fun s => h3 s
    · exact funext fun s => h4 s
    · exact funext fun s => funext fun c => funext fun w => h5 s c w
    · exact funext fun s => funext fun n => h6 s n
    · exact funext fun s => funext fun c => h7 s c
  rw [henv]

/-- Witness for C10 at two identically behaving concrete environments. -/
theorem c10_deterministic_witness :
    tmux_example_main ["tmux_example.py"] envTwoSessions =
      tmux_example_main ["tmux_example.py"] envTwoSessionsCopy :=
  c10_deterministic envTwoSessions envTwoSessionsCopy ["tmux_example.py"] rfl
    (fun _ => rfl) (fun _ => rfl) (fun _ => rfl) (fun _ _ _ => rfl) (fun _ _ => rfl)
    (fun _ _ => rfl)
